import Mathlib

/-!
Verification of the Livigy UPS integration's protocol core against its
natural-language specification.

The definitions below are a shallow embedding of the Python sources:
  * `custom_components/livigy_ups/parser.py`   (dialect parsers),
  * `custom_components/livigy_ups/coordinator.py` (merge / derive / failed-cycle logic),
  * `custom_components/livigy_ups/__init__.py` (control-command builders).

Python `dict[str, object]` values are modelled as association lists
`List (String × Value)` with first-match lookup and in-place update,
Python floats as exact rationals (`Rat`, parsed from the same decimal
grammar the frames use), and fallible parsers as `Option`-returning
functions.  Strings are manipulated through their character lists to
mirror Python's `str.strip` / `str.split` semantics.
-/

/-- The typed values a parsed field mapping can hold: Python float, int,
bool, str and `None`. -/
inductive Value where
  | vFloat (q : Rat)
  | vInt (n : Int)
  | vBool (b : Bool)
  | vStr (s : String)
  | vNull
deriving DecidableEq, Repr

/-- A Field Mapping: the embedding of Python's `dict[str, object]` as an
association list with first-match lookup. -/
abbrev FieldMap := List (String × Value)

/-! ## Python string primitives -/

/-- Python `str.strip()` on a character list: drop whitespace from both ends. -/
def pyStripChars (cs : List Char) : List Char :=
  ((cs.dropWhile Char.isWhitespace).reverse.dropWhile Char.isWhitespace).reverse

/-- Python `str.strip()`. -/
def pyStrip (s : String) : String := String.mk (pyStripChars s.data)

/-- Accumulator loop behind `str.split()` (split on runs of whitespace,
no empty tokens). -/
def wordsAux : List Char → List Char → List (List Char)
  | [], acc => if acc.isEmpty then [] else [acc.reverse]
  | c :: cs, acc =>
    if c.isWhitespace then
      if acc.isEmpty then wordsAux cs [] else acc.reverse :: wordsAux cs []
    else wordsAux cs (c :: acc)

/-- Python `str.split()` with no separator argument: whitespace runs, empty
tokens discarded. -/
def pySplit (s : String) : List String := (wordsAux s.data []).map String.mk

/-- Python `str.replace("#", "")`: remove every `'#'` character. -/
def removeHashes (s : String) : String := String.mk (s.data.filter (fun c => c ≠ '#'))

/-! ## Python numeric conversions

`float(token)` is embedded for plain ASCII decimal and scientific
literals (optional sign, digits with optional fraction, optional
exponent, surrounding whitespace) — the only shapes UPS frames carry.
The value is kept exact as a `Rat`. -/

/-- Decimal digits to a natural number. -/
def digitsToNat (cs : List Char) : Nat :=
  cs.foldl (fun acc c => acc * 10 + (c.toNat - 48)) 0

/-- Consume one optional leading sign: `(isNegative, remainder)`. -/
def splitSign (cs : List Char) : Bool × List Char :=
  if cs.head? = some '-' then (true, cs.tail)
  else if cs.head? = some '+' then (false, cs.tail)
  else (false, cs)

/-- Embedding of Python `float(s)` on decimal/scientific ASCII literals.
The value `± (int.frac) · 10^exp` is assembled as one exact fraction
(`mkRat` keeps kernel reduction available, unlike `Rat.mul`/`Rat.add`). -/
def pyFloat (s : String) : Option Rat :=
  let signed := splitSign (pyStrip s).data
  let neg := signed.1
  let cs := signed.2
  let ip := cs.takeWhile Char.isDigit
  let cs := cs.dropWhile Char.isDigit
  let fracRest : List Char × List Char :=
    match cs with
    | '.' :: r => (r.takeWhile Char.isDigit, r.dropWhile Char.isDigit)
    | _ => ([], cs)
  let fp := fracRest.1
  let cs := fracRest.2
  if ip.isEmpty && fp.isEmpty then none
  else
    let mag : Nat := digitsToNat ip * 10 ^ fp.length + digitsToNat fp
    let sgnMag : Int := if neg then -(mag : Int) else (mag : Int)
    let finish : Int → Option Rat := fun e =>
      match e with
      | .ofNat k => some (mkRat (sgnMag * ((10 ^ k : Nat) : Int)) (10 ^ fp.length))
      | .negSucc k => some (mkRat sgnMag (10 ^ fp.length * 10 ^ (k + 1)))
    match cs with
    | [] => finish 0
    | c :: r =>
      if c = 'e' ∨ c = 'E' then
        let esigned := splitSign r
        let ed := esigned.2.takeWhile Char.isDigit
        let rest := esigned.2.dropWhile Char.isDigit
        if ed.isEmpty ∨ ¬ rest.isEmpty then none
        else finish (if esigned.1 then -(digitsToNat ed : Int) else (digitsToNat ed : Int))
      else none

/-- Embedding of Python `int(s)` on a string: optional sign then digits. -/
def pyIntStr (s : String) : Option Int :=
  let signed := splitSign (pyStrip s).data
  let ds := signed.2
  if ds.isEmpty ∨ ¬ ds.all Char.isDigit then none
  else some (if signed.1 then -(digitsToNat ds : Int) else (digitsToNat ds : Int))

/-- Truncation toward zero, the behaviour of Python `int(float)`. -/
def ratTrunc (q : Rat) : Int :=
  if q < 0 then -(((-q.num).toNat / q.den : Nat) : Int) else ((q.num.toNat / q.den : Nat) : Int)

/-! ## parser.py helpers -/

/-- Embeds `parser._strip_wrapping`: strip, drop one leading `'('`, drop one
trailing `'\r'`, strip again. -/
def _strip_wrapping (raw : String) : String :=
  let p := pyStrip raw
  let p := if p.data.head? = some '(' then String.mk (p.data.drop 1) else p
  let p := if p.data.getLast? = some '\r' then String.mk (p.data.dropLast) else p
  pyStrip p

/-- Embeds `parser._is_number`: does `float(value)` succeed? -/
def _is_number (value : String) : Bool := (pyFloat value).isSome

/-- Embeds `parser._normalize_numeric_token`: strip whitespace, then strip every
leading `'#'`. -/
def _normalize_numeric_token (token : String) : String :=
  String.mk ((pyStripChars token.data).dropWhile (fun c => c = '#'))

/-- Embeds `parser._parse_float`. -/
def _parse_float (token : String) : Option Rat := pyFloat (_normalize_numeric_token token)

/-- Embeds `parser._parse_int`: `int(float(...))` with `'#'` normalization. -/
def _parse_int (token : String) : Option Int := (pyFloat (_normalize_numeric_token token)).map ratTrunc

/-! ## Dialect parsers (parser.py) -/

/-- The `parts` local of the frame parsers: stripped payload split on
whitespace. -/
def frameTokens (raw : String) : List String := pySplit (_strip_wrapping raw)

/-- The `bits` local of `parse_q1`: token 7. -/
def q1Bits (raw : String) : String := (frameTokens raw).getD 7 ""

/-- The `bits` local of `parse_qgs`: token 11. -/
def qgsBits (raw : String) : String := (frameTokens raw).getD 11 ""

/-- Reads `bits[i] == "1"` on a validated bitfield. -/
def bitAt (bits : String) (i : Nat) : Bool := bits.data.getD i '0' == '1'

/-- Embeds `parser.parse_q1`: Megatec status snapshot. -/
def parse_q1 (raw : String) : Option FieldMap :=
  if (frameTokens raw).length < 8 then none
  else if (q1Bits raw).length != 8
      || (q1Bits raw).data.any (fun b => b != '0' && b != '1') then none
  else
    match _parse_float ((frameTokens raw).getD 0 ""), _parse_float ((frameTokens raw).getD 1 ""),
        _parse_float ((frameTokens raw).getD 2 ""), _parse_int ((frameTokens raw).getD 3 ""),
        _parse_float ((frameTokens raw).getD 4 ""), _parse_float ((frameTokens raw).getD 5 ""),
        _parse_float ((frameTokens raw).getD 6 "") with
    | some iv, some fv, some ov, some lp, some ifreq, some bv, some tc =>
      some [("input_voltage", .vFloat iv),
            ("fault_voltage", .vFloat fv),
            ("output_voltage", .vFloat ov),
            ("load_percent", .vInt lp),
            ("input_frequency_hz", .vFloat ifreq),
            ("battery_voltage", .vFloat bv),
            ("temperature_c", .vFloat tc),
            ("utility_fail", .vBool (bitAt (q1Bits raw) 0)),
            ("battery_low", .vBool (bitAt (q1Bits raw) 1)),
            ("avr_active", .vBool (bitAt (q1Bits raw) 2)),
            ("ups_failed", .vBool (bitAt (q1Bits raw) 3)),
            ("standby_type", .vBool (bitAt (q1Bits raw) 4)),
            ("test_in_progress", .vBool (bitAt (q1Bits raw) 5)),
            ("shutdown_active", .vBool (bitAt (q1Bits raw) 6)),
            ("beeper_on", .vBool (bitAt (q1Bits raw) 7)),
            ("protocol_family", .vStr "megatec")]
    | _, _, _, _, _, _, _ => none

/-- The Centurion topology-code table from `parse_qgs`. -/
def topologyMap : List (String × String) :=
  [("00", "standby"), ("01", "line_interactive"), ("10", "online")]

/-- Embeds `parser.parse_qgs`: Centurion status snapshot.  The sub-bitfield
characters `b9 b8 | b7 … b0 | a0 a1` of the source are positions
`0 1 | 2 … 9 | 10 11` of the 12-character bitfield. -/
def parse_qgs (raw : String) : Option FieldMap :=
  if (frameTokens raw).length < 12 then none
  else if (qgsBits raw).length != 12
      || (qgsBits raw).data.any (fun b => b != '0' && b != '1') then none
  else
    match _parse_float ((frameTokens raw).getD 0 ""), _parse_float ((frameTokens raw).getD 1 ""),
        _parse_float ((frameTokens raw).getD 2 ""), _parse_float ((frameTokens raw).getD 3 ""),
        _parse_float ((frameTokens raw).getD 4 ""), _parse_int ((frameTokens raw).getD 5 ""),
        _parse_float ((frameTokens raw).getD 6 ""), _parse_float ((frameTokens raw).getD 7 ""),
        _parse_float ((frameTokens raw).getD 8 ""), _parse_float ((frameTokens raw).getD 9 ""),
        _parse_float ((frameTokens raw).getD 10 "") with
    | some iv, some ifreq, some ov, some ofreq, some oc, some lp, some pbus,
        some nbus, some bv, some nbv, some tc =>
      some [("input_voltage", .vFloat iv),
            ("input_frequency_hz", .vFloat ifreq),
            ("output_voltage", .vFloat ov),
            ("output_frequency_hz", .vFloat ofreq),
            ("output_current_a", .vFloat oc),
            ("load_percent", .vInt lp),
            ("positive_bus_voltage", .vFloat pbus),
            ("negative_bus_voltage", .vFloat nbus),
            ("battery_voltage", .vFloat bv),
            ("negative_battery_voltage", .vFloat nbv),
            ("temperature_c", .vFloat tc),
            ("utility_fail", .vBool (bitAt (qgsBits raw) 2)),
            ("battery_low", .vBool (bitAt (qgsBits raw) 3)),
            ("avr_active", .vBool (bitAt (qgsBits raw) 4)),
            ("ups_failed", .vBool (bitAt (qgsBits raw) 5)),
            ("epo_active", .vBool (bitAt (qgsBits raw) 6)),
            ("test_in_progress", .vBool (bitAt (qgsBits raw) 7)),
            ("shutdown_active", .vBool (bitAt (qgsBits raw) 8)),
            ("battery_silence", .vBool (bitAt (qgsBits raw) 9)),
            ("beeper_on", .vBool ((qgsBits raw).data.getD 9 '0' == '0')),
            ("battery_test_fail", .vBool (bitAt (qgsBits raw) 10)),
            ("battery_test_ok", .vBool (bitAt (qgsBits raw) 11)),
            ("standby_type", .vBool (((qgsBits raw).data.getD 0 ' ' == '0')
              && ((qgsBits raw).data.getD 1 ' ' == '0'))),
            ("ups_topology", .vStr ((topologyMap.lookup
              (String.mk [(qgsBits raw).data.getD 0 ' ', (qgsBits raw).data.getD 1 ' '])).getD
                "unknown")),
            ("protocol_family", .vStr "centurion")]
    | _, _, _, _, _, _, _, _, _, _, _ => none

/-- The `rated_watts` conversion of `parse_qmd`: `int(s) if s else None`
under a `ValueError → None` guard, after `'#'` removal. -/
def qmdRatedWatts (s : String) : Value :=
  if s.data.isEmpty then Value.vNull
  else
    match pyIntStr s with
    | some n => .vInt n
    | none => .vNull

/-- The `power_factor_percent` conversion of `parse_qmd`: plain `int(s)`
under a `ValueError → None` guard — note: no `'#'` removal. -/
def qmdPowerFactor (s : String) : Value :=
  match pyIntStr s with
  | some n => .vInt n
  | none => .vNull

/-- Embeds `parser.parse_qmd`: Centurion identity / ratings query. -/
def parse_qmd (raw : String) : Option FieldMap :=
  if (frameTokens raw).length < 8 then none
  else
    some [("company", .vStr "PowerShield"),
          ("model", .vStr (removeHashes ((frameTokens raw).getD 0 ""))),
          ("rated_watts", qmdRatedWatts (removeHashes ((frameTokens raw).getD 1 ""))),
          ("output_power_factor_percent", qmdPowerFactor ((frameTokens raw).getD 2 ""))]

/-- The fixed QMOD code table from `parse_qmod`. -/
def qmodModeMap : List (String × String) :=
  [("P", "power_on"), ("S", "standby"), ("Y", "bypass"), ("L", "line"),
   ("B", "battery"), ("T", "battery_test"), ("F", "fault"), ("E", "eco"),
   ("C", "converter"), ("D", "shutdown")]

/-- The `code` local of `parse_qmod`: `payload[:1]`. -/
def qmodCode (raw : String) : String := String.mk ((_strip_wrapping raw).data.take 1)

/-- Embeds `parser.parse_qmod`: UPS working-mode query (first character of the
stripped payload looked up in the fixed code table). -/
def parse_qmod (raw : String) : Option FieldMap :=
  match qmodModeMap.lookup (qmodCode raw) with
  | some mode => some [("ups_mode", .vStr mode), ("ups_mode_code", .vStr (qmodCode raw))]
  | none => none

/-- Embeds `parser.parse_qri`: Centurion ratings query (four floats). -/
def parse_qri (raw : String) : Option FieldMap :=
  if (frameTokens raw).length < 4 then none
  else
    match _parse_float ((frameTokens raw).getD 0 ""), _parse_float ((frameTokens raw).getD 1 ""),
        _parse_float ((frameTokens raw).getD 2 ""), _parse_float ((frameTokens raw).getD 3 "") with
    | some rv, some rc, some rbv, some rf =>
      some [("rated_voltage", .vFloat rv),
            ("rated_current", .vFloat rc),
            ("rated_battery_voltage", .vFloat rbv),
            ("rated_frequency_hz", .vFloat rf)]
    | _, _, _, _ => none

/-- Embeds `parser.parse_qvfw`: firmware query; payload must start with `VERFW:`. -/
def parse_qvfw (raw : String) : Option FieldMap :=
  if "VERFW:".data.isPrefixOf (_strip_wrapping raw).data then
    some [("firmware", .vStr (pyStrip (String.mk ((_strip_wrapping raw).data.drop 6))))]
  else none

/-- The payload `parse_i` tokenizes: raw stripped, leading `'#'`s
removed, stripped again. -/
def _i_payload (raw : String) : String :=
  pyStrip (String.mk ((pyStrip raw).data.dropWhile (fun c => c = '#')))

/-- Embeds `parser.parse_i`: Megatec identity query. -/
def parse_i (raw : String) : Option FieldMap :=
  if (pyStrip raw).data.head? = some '(' then none
  else
    match pySplit (_i_payload raw) with
    | [] => none
    | p0 :: rest =>
      if _is_number p0 then none
      else if (p0 :: rest).length < 3 then
        some [("company", .vStr ""), ("model", .vStr (_i_payload raw)), ("firmware", .vStr "")]
      else
        some [("company", .vStr p0),
              ("model", .vStr ((p0 :: rest).getD 1 "")),
              ("firmware", .vStr (String.intercalate " " ((p0 :: rest).drop 2)))]

/-- The `payload` local of `parse_f`: stripped-and-unwrapped frame with
leading `'#'`s removed, stripped again. -/
def _f_payload (raw : String) : String :=
  pyStrip (String.mk ((_strip_wrapping raw).data.dropWhile (fun c => c = '#')))

/-- Embeds `parser.parse_f`: Megatec ratings query (four floats). -/
def parse_f (raw : String) : Option FieldMap :=
  if (pySplit (_f_payload raw)).length < 4 then none
  else
    match _parse_float ((pySplit (_f_payload raw)).getD 0 ""),
        _parse_float ((pySplit (_f_payload raw)).getD 1 ""),
        _parse_float ((pySplit (_f_payload raw)).getD 2 ""),
        _parse_float ((pySplit (_f_payload raw)).getD 3 "") with
    | some rv, some rc, some rbv, some rf =>
      some [("rated_voltage", .vFloat rv),
            ("rated_current", .vFloat rc),
            ("rated_battery_voltage", .vFloat rbv),
            ("rated_frequency_hz", .vFloat rf)]
    | _, _, _, _ => none

/-! ## Control-command builders (`__init__.py`)

`_build_test_command` and `_build_shutdown_command` are pure functions
run by the service handlers before `async_send_command`; a `.error`
result is the `vol.Invalid` raised before any command string reaches the
transport. -/

/-- Renders `f"{n:02d}"` for the validated 1–99 range. -/
def pad2 (n : Nat) : String := if n < 10 then "0" ++ toString n else toString n

/-- Renders `f"{n:04d}"` for the validated 0–9999 range. -/
def pad4 (n : Nat) : String :=
  if n < 10 then "000" ++ toString n
  else if n < 100 then "00" ++ toString n
  else if n < 1000 then "0" ++ toString n
  else toString n

/-- Embeds `__init__._build_test_command`. -/
def _build_test_command (minutes : Option Int) (until_low : Bool) : Except String String :=
  if until_low then .ok "TL"
  else
    match minutes with
    | some m =>
      if m < 1 ∨ m > 99 then .error "minutes must be between 1 and 99"
      else .ok ("T" ++ pad2 m.toNat)
    | none => .ok "T"

/-- Embeds `__init__._build_shutdown_command`. -/
def _build_shutdown_command (delay_minutes : Int) (restart_minutes : Option Int) :
    Except String String :=
  if delay_minutes < 0 ∨ delay_minutes > 9999 then
    .error "delay_minutes must be between 0 and 9999"
  else
    match restart_minutes with
    | none => .ok ("S" ++ pad4 delay_minutes.toNat)
    | some r =>
      if r < 0 ∨ r > 9999 then .error "restart_minutes must be between 0 and 9999"
      else .ok ("S" ++ pad4 delay_minutes.toNat ++ "R" ++ pad4 r.toNat)

/-! ## Field-mapping operations (coordinator.py merge / derive) -/

/-- Python `dict.get`: first-match lookup. -/
def lookupKey : FieldMap → String → Option Value
  | [], _ => none
  | (k', v) :: rest, k => if k' = k then some v else lookupKey rest k

/-- Python `data[k] = v`: replace the first binding of `k`, or append one. -/
def setKey : FieldMap → String → Value → FieldMap
  | [], k, v => [(k, v)]
  | (k', v') :: rest, k, v =>
    if k' = k then (k, v) :: rest else (k', v') :: setKey rest k v

/-- Python `dst.update(src)`: set every binding of `src` in `dst`, in order. -/
def updateAll (dst src : FieldMap) : FieldMap :=
  src.foldl (fun acc p => setKey acc p.1 p.2) dst

/-- Python truthiness of `data.get(k)` (missing key and `None` are falsy). -/
def truthy : Option Value → Bool
  | none => false
  | some .vNull => false
  | some (.vBool b) => b
  | some (.vInt n) => n != 0
  | some (.vFloat q) => q != 0
  | some (.vStr s) => !s.data.isEmpty

/-- Python `str(value)`.  The rendering of a float value is abstract: it
is only ever compared with the fixed lower-case mode tokens, which no
numeric rendering equals. -/
def pyStr : Value → String
  | .vStr s => s
  | .vBool b => if b then "True" else "False"
  | .vInt n => toString n
  | .vFloat q => toString q
  | .vNull => "None"

/-- Python `str.lower()` (ASCII). -/
def pyLower (s : String) : String := String.mk (s.data.map Char.toLower)

/-- Python `float(value)` on a stored field value (`None` raises, i.e.
yields no number). -/
def pyFloatOfValue : Value → Option Rat
  | .vInt n => some (n : Rat)
  | .vFloat q => some q
  | .vBool b => some (if b then 1 else 0)
  | .vStr s => pyFloat s
  | .vNull => none

/-- The `on_battery` derivation of `_poll_once` (coordinator.py line 208). -/
def onBatteryOf (d : FieldMap) : Bool :=
  let um := pyLower (pyStr ((lookupKey d "ups_mode").getD (.vStr "")))
  (um == "battery" || um == "battery_test" || um == "battery test")
    || truthy (lookupKey d "utility_fail")

/-- The `overload_warning` derivation of `_poll_once` (lines 209-212):
`float(load_percent) >= 100.0` when present and convertible, else null. -/
def overloadOf (lp : Option Value) : Value :=
  match lp with
  | none => .vNull
  | some .vNull => .vNull
  | some v =>
    match pyFloatOfValue v with
    | some q => .vBool (decide (100 ≤ q))
    | none => .vNull

/-- The `status_summary` priority chain of `_poll_once` (lines 213-226). -/
def statusSummaryOf (d : FieldMap) : String :=
  if !truthy (lookupKey d "adapter_connected") then "Adapter Disconnected"
  else if !truthy (lookupKey d "ups_responding") then "UPS Not Responding"
  else if truthy (lookupKey d "ups_failed") then "UPS Fault"
  else if truthy (lookupKey d "utility_fail") then "On Battery"
  else if truthy (lookupKey d "battery_low") then "Battery Low"
  else if truthy (lookupKey d "overload_warning") then "Overload"
  else "Normal"

/-- The field mappings a successful `_poll_once` cycle has gathered when
it reaches the merge step (lines 198-203): the primary snapshot, the
optional Centurion legacy-Q1 result, and the optional enrich mappings
(each `[]` when its query failed, as in the Python initialisers). -/
structure PollInputs where
  live : FieldMap
  q1Legacy : Option FieldMap
  identity : FieldMap
  ratings : FieldMap
  mode : FieldMap
  firmware : FieldMap

/-- The fault-voltage backfill (lines 166-171): an available legacy Q1
`fault_voltage` overwrites the live mapping's entry. -/
def liveWithBackfill (inp : PollInputs) : FieldMap :=
  match inp.q1Legacy with
  | none => inp.live
  | some q1l =>
    match lookupKey q1l "fault_voltage" with
    | some v => if v ≠ Value.vNull then setKey inp.live "fault_voltage" v else inp.live
    | none => inp.live

/-- The merge of lines 198-203: `data.update(...)` on an empty dict in
source order. -/
def mergedData (inp : PollInputs) : FieldMap :=
  updateAll (updateAll (updateAll (updateAll
    (updateAll [] (liveWithBackfill inp)) inp.identity) inp.ratings) inp.mode) inp.firmware

/-- Lines 204-205: `adapter_connected = True`, `ups_responding = True`. -/
def withAvailability (inp : PollInputs) : FieldMap :=
  setKey (setKey (mergedData inp) "adapter_connected" (.vBool true))
    "ups_responding" (.vBool true)

/-- Lines 206-212: derive `on_battery` and `overload_warning` from the
pre-derivation data. -/
def withDerived (inp : PollInputs) : FieldMap :=
  setKey (setKey (withAvailability inp) "on_battery" (.vBool (onBatteryOf (withAvailability inp))))
    "overload_warning" (overloadOf (lookupKey (withAvailability inp) "load_percent"))

/-- The full merge/derive tail of `_poll_once` (lines 198-227). -/
def _poll_once_merge (inp : PollInputs) : FieldMap :=
  setKey (withDerived inp) "status_summary" (.vStr (statusSummaryOf (withDerived inp)))

/-- The failed-cycle path of `_async_update_data` (coordinator.py lines
333-341): copy the previous mapping and overwrite exactly the three
availability fields. -/
def _async_update_data_failed (prev : FieldMap) (adapter_connected : Bool) : FieldMap :=
  setKey (setKey (setKey prev "adapter_connected" (.vBool adapter_connected))
      "ups_responding" (.vBool false))
    "status_summary"
    (.vStr (if adapter_connected then "UPS Not Responding" else "Adapter Disconnected"))

/-! ## Lemmas about the field-mapping operations -/

theorem lookupKey_setKey_self (m : FieldMap) (k : String) (v : Value) :
    lookupKey (setKey m k v) k = some v := by
  induction m with
  | nil => simp [setKey, lookupKey]
  | cons p rest ih =>
    obtain ⟨a, b⟩ := p
    by_cases h : a = k
    · simp [setKey, h, lookupKey]
    · simp [setKey, h, lookupKey, ih]

theorem lookupKey_setKey_of_ne (m : FieldMap) {k k' : String} (h : k ≠ k') (v : Value) :
    lookupKey (setKey m k v) k' = lookupKey m k' := by
  induction m with
  | nil => simp [setKey, lookupKey, h]
  | cons p rest ih =>
    obtain ⟨a, b⟩ := p
    by_cases ha : a = k
    · subst ha
      simp [setKey, lookupKey, h]
    · simp [setKey, ha, lookupKey, ih]

theorem lookupKey_eq_none_of_not_mem (m : FieldMap) (k : String)
    (h : k ∉ m.map Prod.fst) : lookupKey m k = none := by
  induction m with
  | nil => rfl
  | cons p rest ih =>
    obtain ⟨a, b⟩ := p
    simp only [List.map_cons, List.mem_cons] at h
    push_neg at h
    simp [lookupKey, Ne.symm h.1, ih h.2]

theorem mem_keys_of_lookupKey_isSome (m : FieldMap) (k : String)
    (h : (lookupKey m k).isSome = true) : k ∈ m.map Prod.fst := by
  induction m with
  | nil => simp [lookupKey] at h
  | cons p rest ih =>
    obtain ⟨a, b⟩ := p
    by_cases ha : a = k
    · simp [ha]
    · simp only [lookupKey, ha, if_false] at h
      simp [ih h]

theorem lookupKey_updateAll_of_not_mem (dst src : FieldMap) (k : String)
    (h : k ∉ src.map Prod.fst) : lookupKey (updateAll dst src) k = lookupKey dst k := by
  induction src generalizing dst with
  | nil => rfl
  | cons p rest ih =>
    obtain ⟨a, b⟩ := p
    simp only [List.map_cons, List.mem_cons] at h
    push_neg at h
    have hstep : updateAll dst ((a, b) :: rest) = updateAll (setKey dst a b) rest := rfl
    rw [hstep, ih _ h.2, lookupKey_setKey_of_ne _ (fun hc => h.1 hc.symm)]

/-! ## Key-set lemmas for the Megatec parsers -/

/-- The field names `parse_q1` can produce. -/
def q1Keys : List String :=
  ["input_voltage", "fault_voltage", "output_voltage", "load_percent",
   "input_frequency_hz", "battery_voltage", "temperature_c", "utility_fail",
   "battery_low", "avr_active", "ups_failed", "standby_type", "test_in_progress",
   "shutdown_active", "beeper_on", "protocol_family"]

/-- The field names `parse_i` can produce. -/
def iKeys : List String := ["company", "model", "firmware"]

/-- The field names `parse_f` can produce. -/
def fKeys : List String :=
  ["rated_voltage", "rated_current", "rated_battery_voltage", "rated_frequency_hz"]

theorem parse_q1_keys {raw : String} {m : FieldMap} (h : parse_q1 raw = some m) :
    m.map Prod.fst = q1Keys := by
  unfold parse_q1 at h
  by_cases h1 : (frameTokens raw).length < 8
  · rw [if_pos h1] at h
    exact Option.noConfusion h
  rw [if_neg h1] at h
  by_cases h2 : ((q1Bits raw).length != 8
      || (q1Bits raw).data.any (fun b => b != '0' && b != '1')) = true
  · rw [if_pos h2] at h
    exact Option.noConfusion h
  rw [if_neg h2] at h
  rcases hf0 : _parse_float ((frameTokens raw).getD 0 "") with _ | v0
  · rw [hf0] at h; dsimp only at h; exact Option.noConfusion h
  rw [hf0] at h
  rcases hf1 : _parse_float ((frameTokens raw).getD 1 "") with _ | v1
  · rw [hf1] at h; dsimp only at h; exact Option.noConfusion h
  rw [hf1] at h
  rcases hf2 : _parse_float ((frameTokens raw).getD 2 "") with _ | v2
  · rw [hf2] at h; dsimp only at h; exact Option.noConfusion h
  rw [hf2] at h
  rcases hf3 : _parse_int ((frameTokens raw).getD 3 "") with _ | n3
  · rw [hf3] at h; dsimp only at h; exact Option.noConfusion h
  rw [hf3] at h
  rcases hf4 : _parse_float ((frameTokens raw).getD 4 "") with _ | v4
  · rw [hf4] at h; dsimp only at h; exact Option.noConfusion h
  rw [hf4] at h
  rcases hf5 : _parse_float ((frameTokens raw).getD 5 "") with _ | v5
  · rw [hf5] at h; dsimp only at h; exact Option.noConfusion h
  rw [hf5] at h
  rcases hf6 : _parse_float ((frameTokens raw).getD 6 "") with _ | v6
  · rw [hf6] at h; dsimp only at h; exact Option.noConfusion h
  rw [hf6] at h
  dsimp only at h
  simp only [Option.some.injEq] at h
  subst h
  rfl

theorem parse_i_keys {raw : String} {m : FieldMap} (h : parse_i raw = some m) :
    m.map Prod.fst = iKeys := by
  unfold parse_i at h
  by_cases h1 : (pyStrip raw).data.head? = some '('
  · rw [if_pos h1] at h
    exact Option.noConfusion h
  rw [if_neg h1] at h
  rcases hp : pySplit (_i_payload raw) with _ | ⟨p0, rest⟩
  · rw [hp] at h; dsimp only at h; exact Option.noConfusion h
  rw [hp] at h
  dsimp only at h
  by_cases h2 : _is_number p0 = true
  · rw [if_pos h2] at h
    exact Option.noConfusion h
  rw [if_neg h2] at h
  by_cases h3 : (p0 :: rest).length < 3
  · rw [if_pos h3] at h
    simp only [Option.some.injEq] at h
    subst h
    rfl
  · rw [if_neg h3] at h
    simp only [Option.some.injEq] at h
    subst h
    rfl

theorem parse_f_keys {raw : String} {m : FieldMap} (h : parse_f raw = some m) :
    m.map Prod.fst = fKeys := by
  unfold parse_f at h
  by_cases h1 : (pySplit (_f_payload raw)).length < 4
  · rw [if_pos h1] at h
    exact Option.noConfusion h
  rw [if_neg h1] at h
  rcases hf0 : _parse_float ((pySplit (_f_payload raw)).getD 0 "") with _ | v0
  · rw [hf0] at h; dsimp only at h; exact Option.noConfusion h
  rw [hf0] at h
  rcases hf1 : _parse_float ((pySplit (_f_payload raw)).getD 1 "") with _ | v1
  · rw [hf1] at h; dsimp only at h; exact Option.noConfusion h
  rw [hf1] at h
  rcases hf2 : _parse_float ((pySplit (_f_payload raw)).getD 2 "") with _ | v2
  · rw [hf2] at h; dsimp only at h; exact Option.noConfusion h
  rw [hf2] at h
  rcases hf3 : _parse_float ((pySplit (_f_payload raw)).getD 3 "") with _ | v3
  · rw [hf3] at h; dsimp only at h; exact Option.noConfusion h
  rw [hf3] at h
  dsimp only at h
  simp only [Option.some.injEq] at h
  subst h
  rfl

/-! ## Derived-status helper lemmas -/

theorem summaryChainNeAux (c1 c2 c3 c4 : Bool) :
    (if c1 then "UPS Fault" else if c2 then "On Battery" else if c3 then "Battery Low"
      else if c4 then "Overload" else "Normal") ≠ "Adapter Disconnected" ∧
    (if c1 then "UPS Fault" else if c2 then "On Battery" else if c3 then "Battery Low"
      else if c4 then "Overload" else "Normal") ≠ "UPS Not Responding" := by
  rcases c1 <;> rcases c2 <;> rcases c3 <;> rcases c4 <;> simp

theorem statusSummaryOf_ne (d : FieldMap)
    (hA : lookupKey d "adapter_connected" = some (.vBool true))
    (hU : lookupKey d "ups_responding" = some (.vBool true)) :
    statusSummaryOf d ≠ "Adapter Disconnected" ∧ statusSummaryOf d ≠ "UPS Not Responding" := by
  unfold statusSummaryOf
  rw [hA, hU]
  simp only [truthy, Bool.not_true, Bool.false_eq_true, if_false]
  exact summaryChainNeAux _ _ _ _

/-! ## Claim C3 -/

/-- C3: when a poll cycle's fresh-data path fails entirely, the produced
Poll Result keeps every field of the previous result unchanged except
`adapter_connected` (set from the TCP probe), `ups_responding` (false)
and `status_summary` ("UPS Not Responding" when the probe succeeds,
"Adapter Disconnected" otherwise). -/
theorem c3_stale_carry_forward (prev : FieldMap) (probe : Bool) :
    (∀ k : String, k ≠ "adapter_connected" → k ≠ "ups_responding" → k ≠ "status_summary" →
      lookupKey (_async_update_data_failed prev probe) k = lookupKey prev k) ∧
    lookupKey (_async_update_data_failed prev probe) "adapter_connected" = some (.vBool probe) ∧
    lookupKey (_async_update_data_failed prev probe) "ups_responding" = some (.vBool false) ∧
    lookupKey (_async_update_data_failed prev probe) "status_summary" =
      some (.vStr (if probe then "UPS Not Responding" else "Adapter Disconnected")) := by
  unfold _async_update_data_failed
  refine ⟨fun k hka hku hks => ?_, ?_, ?_, ?_⟩
  · rw [lookupKey_setKey_of_ne _ (Ne.symm hks), lookupKey_setKey_of_ne _ (Ne.symm hku),
      lookupKey_setKey_of_ne _ (Ne.symm hka)]
  · rw [lookupKey_setKey_of_ne _ (by decide), lookupKey_setKey_of_ne _ (by decide),
      lookupKey_setKey_self]
  · rw [lookupKey_setKey_of_ne _ (by decide), lookupKey_setKey_self]
  · rw [lookupKey_setKey_self]

/-- C3 witness at a concrete previous mapping, probe result and field. -/
theorem c3_stale_carry_forward_witness :
    lookupKey (_async_update_data_failed [("input_voltage", Value.vFloat 1)] true) "input_voltage"
      = lookupKey [("input_voltage", Value.vFloat 1)] "input_voltage" ∧
    lookupKey (_async_update_data_failed [("input_voltage", Value.vFloat 1)] true) "ups_responding"
      = some (Value.vBool false) :=
  ⟨(c3_stale_carry_forward [("input_voltage", Value.vFloat 1)] true).1 "input_voltage"
      (by decide) (by decide) (by decide),
   (c3_stale_carry_forward [("input_voltage", Value.vFloat 1)] true).2.2.1⟩

/-! ## Claim C10 -/

/-- C10: every Poll Result produced by the successful fresh-data path has
`adapter_connected = true` and `ups_responding = true`, so its
`status_summary` is never "Adapter Disconnected" or "UPS Not Responding". -/
theorem c10_fresh_path_availability (inp : PollInputs) :
    lookupKey (_poll_once_merge inp) "adapter_connected" = some (.vBool true) ∧
    lookupKey (_poll_once_merge inp) "ups_responding" = some (.vBool true) ∧
    ∃ s : String, lookupKey (_poll_once_merge inp) "status_summary" = some (.vStr s) ∧
      s ≠ "Adapter Disconnected" ∧ s ≠ "UPS Not Responding" := by
  have hA : lookupKey (withDerived inp) "adapter_connected" = some (.vBool true) := by
    unfold withDerived withAvailability
    rw [lookupKey_setKey_of_ne _ (by decide), lookupKey_setKey_of_ne _ (by decide),
      lookupKey_setKey_of_ne _ (by decide), lookupKey_setKey_self]
  have hU : lookupKey (withDerived inp) "ups_responding" = some (.vBool true) := by
    unfold withDerived withAvailability
    rw [lookupKey_setKey_of_ne _ (by decide), lookupKey_setKey_of_ne _ (by decide),
      lookupKey_setKey_self]
  refine ⟨?_, ?_, statusSummaryOf (withDerived inp), ?_,
    (statusSummaryOf_ne _ hA hU).1, (statusSummaryOf_ne _ hA hU).2⟩
  · unfold _poll_once_merge
    rw [lookupKey_setKey_of_ne _ (by decide)]
    exact hA
  · unfold _poll_once_merge
    rw [lookupKey_setKey_of_ne _ (by decide)]
    exact hU
  · unfold _poll_once_merge
    rw [lookupKey_setKey_self]

/-! ## Claim C6 -/

/-- C6 counterexample: the claim says mode input "T" is a parse failure,
but "T" is in the code table (`battery_test`), so `parse_qmod "T"`
succeeds. -/
theorem c6_qmod_T_counterexample :
    parse_qmod "T" = some [("ups_mode", Value.vStr "battery_test"),
      ("ups_mode_code", Value.vStr "T")] := by decide

/-- C6 amended: "T" maps to `battery_test` (it is in the code table),
"B" maps to `battery`, and every input whose first character is outside
the fixed code table is a parse failure. -/
theorem c6_qmod_code_table :
    parse_qmod "T" = some [("ups_mode", Value.vStr "battery_test"),
      ("ups_mode_code", Value.vStr "T")] ∧
    parse_qmod "B" = some [("ups_mode", Value.vStr "battery"),
      ("ups_mode_code", Value.vStr "B")] ∧
    ∀ raw : String, qmodModeMap.lookup (qmodCode raw) = none → parse_qmod raw = none := by
  refine ⟨by decide, by decide, fun raw h => ?_⟩
  unfold parse_qmod
  rw [h]

/-- C6 witness: "X" is outside the code table and is rejected. -/
theorem c6_qmod_code_table_witness : parse_qmod "X" = none :=
  c6_qmod_code_table.2.2 "X" (by decide)

/-! ## Claim C7 -/

/-- C7 counterexample: a battery-test request with `minutes = 100` and
`until_low = true` is not rejected — `until_low` short-circuits the
minutes validation and the command "TL" is produced. -/
theorem c7_until_low_counterexample :
    _build_test_command (some 100) true = Except.ok "TL" := rfl

/-- C7 amended: with `until_low = false`, test minutes outside 1–99 are
rejected before any command string is produced and 99 encodes to "T99";
`until_low = true` yields "TL" ignoring minutes; shutdown delay and
restart minutes outside 0–9999 are rejected before any transport
attempt. -/
theorem c7_command_validation :
    (∀ m : Int, m < 1 ∨ 99 < m →
      _build_test_command (some m) false = .error "minutes must be between 1 and 99") ∧
    _build_test_command (some 99) false = .ok "T99" ∧
    (∀ mo : Option Int, _build_test_command mo true = .ok "TL") ∧
    (∀ (d : Int) (r : Option Int), d < 0 ∨ 9999 < d →
      _build_shutdown_command d r = .error "delay_minutes must be between 0 and 9999") ∧
    (∀ d r : Int, ¬(d < 0 ∨ 9999 < d) → r < 0 ∨ 9999 < r →
      _build_shutdown_command d (some r) = .error "restart_minutes must be between 0 and 9999") := by
  refine ⟨fun m h => ?_, rfl, fun mo => rfl, fun d r h => ?_, fun d r hd hr => ?_⟩
  · unfold _build_test_command
    rw [if_neg (by simp)]
    dsimp only
    rw [if_pos h]
  · unfold _build_shutdown_command
    rw [if_pos h]
  · unfold _build_shutdown_command
    rw [if_neg hd]
    dsimp only
    rw [if_pos hr]

/-- C7 witness at the boundary inputs 100, 10000 and 10000. -/
theorem c7_command_validation_witness :
    _build_test_command (some 100) false = .error "minutes must be between 1 and 99" ∧
    _build_shutdown_command 10000 none = .error "delay_minutes must be between 0 and 9999" ∧
    _build_shutdown_command 0 (some 10000) = .error "restart_minutes must be between 0 and 9999" :=
  ⟨c7_command_validation.1 100 (by decide),
   c7_command_validation.2.2.2.1 10000 none (by decide),
   c7_command_validation.2.2.2.2 0 10000 (by decide) (by decide)⟩

/-! ## Claim C9 -/

/-- C9 counterexample: on `parse_qmd`'s output power-factor field the
`'#'` prefix is NOT stripped before integer conversion: "#85" yields a
null power factor while "85" yields 85, on otherwise identical frames. -/
theorem c9_qmd_hash_counterexample :
    parse_qmd "M1 1500 #85 a b c d e" =
      some [("company", Value.vStr "PowerShield"), ("model", Value.vStr "M1"),
        ("rated_watts", Value.vInt 1500), ("output_power_factor_percent", Value.vNull)] ∧
    parse_qmd "M1 1500 85 a b c d e" =
      some [("company", Value.vStr "PowerShield"), ("model", Value.vStr "M1"),
        ("rated_watts", Value.vInt 1500), ("output_power_factor_percent", Value.vInt 85)] := by
  constructor <;> decide

/-! ## String-stripping lemmas for C9 -/

theorem dropWhileWs_eq_self {l : List Char} (h : ∀ c ∈ l, c.isWhitespace = false) :
    l.dropWhile Char.isWhitespace = l := by
  cases l with
  | nil => rfl
  | cons a t =>
    rw [List.dropWhile_cons, if_neg]
    simp [h a (List.mem_cons_self a t)]

theorem pyStripChars_eq_self {l : List Char} (h : ∀ c ∈ l, c.isWhitespace = false) :
    pyStripChars l = l := by
  unfold pyStripChars
  rw [dropWhileWs_eq_self h,
    dropWhileWs_eq_self (fun c hc => h c (List.mem_reverse.mp hc)), List.reverse_reverse]

/-- C9 amended: for whitespace-free tokens a leading `'#'` is stripped
before numeric conversion by `_parse_float` and `_parse_int` (used for
all numeric fields of Q1/QGS/QRI/F), while the plain `int()` conversion
used for `parse_qmd`'s output power-factor field rejects a `'#'`-prefixed
token, yielding a null field instead of a number. -/
theorem c9_hash_normalization :
    ∀ t : String, t.data.all (fun c => !c.isWhitespace) = true →
      _parse_float ("#" ++ t) = _parse_float t ∧
      _parse_int ("#" ++ t) = _parse_int t ∧
      pyIntStr ("#" ++ t) = none := by
  intro t ht
  have hmem : ∀ c ∈ t.data, c.isWhitespace = false := by
    intro c hc
    have h2 := List.all_eq_true.mp ht c hc
    simpa using h2
  have hdata : ("#" ++ t).data = '#' :: t.data := rfl
  have hall : ∀ c ∈ '#' :: t.data, c.isWhitespace = false := by
    intro c hc
    rcases List.mem_cons.mp hc with h1 | h2
    · subst h1; rfl
    · exact hmem c h2
  have hnorm : _normalize_numeric_token ("#" ++ t) = _normalize_numeric_token t := by
    unfold _normalize_numeric_token
    rw [hdata, pyStripChars_eq_self hall, pyStripChars_eq_self hmem, List.dropWhile_cons,
      if_pos (by decide)]
  have hstrip : (pyStrip ("#" ++ t)).data = '#' :: t.data := by
    unfold pyStrip
    rw [hdata]
    exact pyStripChars_eq_self hall
  refine ⟨?_, ?_, ?_⟩
  · unfold _parse_float
    rw [hnorm]
  · unfold _parse_int
    rw [hnorm]
  · unfold pyIntStr splitSign
    rw [hstrip]
    simp

/-- C9 witness at the concrete token "220.0". -/
theorem c9_hash_normalization_witness :
    _parse_float ("#" ++ "220.0") = _parse_float "220.0" ∧
    _parse_int ("#" ++ "220.0") = _parse_int "220.0" ∧
    pyIntStr ("#" ++ "220.0") = none :=
  c9_hash_normalization "220.0" (by decide)

/-! ## Claim C1 -/

/-- C1: the example Megatec frame parses to the documented field values,
and in general every valid 8-token Q1 frame has each numeric token 0–6
recovered exactly by the token's own numeric parse and each boolean flag
equal to the corresponding positional bit of token 7. -/
theorem c1_q1_recovery :
    parse_q1 "(219.7 219.7 219.7 000 50.0 27.3 30.0 01010101" = some [
      ("input_voltage", Value.vFloat (mkRat 2197 10)),
      ("fault_voltage", Value.vFloat (mkRat 2197 10)),
      ("output_voltage", Value.vFloat (mkRat 2197 10)),
      ("load_percent", Value.vInt 0),
      ("input_frequency_hz", Value.vFloat 50),
      ("battery_voltage", Value.vFloat (mkRat 273 10)),
      ("temperature_c", Value.vFloat 30),
      ("utility_fail", Value.vBool false),
      ("battery_low", Value.vBool true),
      ("avr_active", Value.vBool false),
      ("ups_failed", Value.vBool true),
      ("standby_type", Value.vBool false),
      ("test_in_progress", Value.vBool true),
      ("shutdown_active", Value.vBool false),
      ("beeper_on", Value.vBool true),
      ("protocol_family", Value.vStr "megatec")] ∧
    ∀ (raw : String) (v0 v1 v2 : Rat) (n3 : Int) (v4 v5 v6 : Rat),
      (frameTokens raw).length = 8 →
      _parse_float ((frameTokens raw).getD 0 "") = some v0 →
      _parse_float ((frameTokens raw).getD 1 "") = some v1 →
      _parse_float ((frameTokens raw).getD 2 "") = some v2 →
      _parse_int ((frameTokens raw).getD 3 "") = some n3 →
      _parse_float ((frameTokens raw).getD 4 "") = some v4 →
      _parse_float ((frameTokens raw).getD 5 "") = some v5 →
      _parse_float ((frameTokens raw).getD 6 "") = some v6 →
      (q1Bits raw).length = 8 →
      (q1Bits raw).data.any (fun b => b != '0' && b != '1') = false →
      parse_q1 raw = some [
        ("input_voltage", .vFloat v0),
        ("fault_voltage", .vFloat v1),
        ("output_voltage", .vFloat v2),
        ("load_percent", .vInt n3),
        ("input_frequency_hz", .vFloat v4),
        ("battery_voltage", .vFloat v5),
        ("temperature_c", .vFloat v6),
        ("utility_fail", .vBool (bitAt (q1Bits raw) 0)),
        ("battery_low", .vBool (bitAt (q1Bits raw) 1)),
        ("avr_active", .vBool (bitAt (q1Bits raw) 2)),
        ("ups_failed", .vBool (bitAt (q1Bits raw) 3)),
        ("standby_type", .vBool (bitAt (q1Bits raw) 4)),
        ("test_in_progress", .vBool (bitAt (q1Bits raw) 5)),
        ("shutdown_active", .vBool (bitAt (q1Bits raw) 6)),
        ("beeper_on", .vBool (bitAt (q1Bits raw) 7)),
        ("protocol_family", .vStr "megatec")] := by
  constructor
  · decide
  · intro raw v0 v1 v2 n3 v4 v5 v6 h8 h0 h1 h2 h3 h4 h5 h6 hbl hba
    unfold parse_q1
    rw [h8, if_neg (by decide), hbl, hba]
    rw [if_neg (by decide)]
    rw [h0, h1, h2, h3, h4, h5, h6]

/-- C1 witness: the general recovery statement instantiated at the
example frame. -/
theorem c1_q1_recovery_witness :
    parse_q1 "(219.7 219.7 219.7 000 50.0 27.3 30.0 01010101" = some [
      ("input_voltage", .vFloat (mkRat 2197 10)),
      ("fault_voltage", .vFloat (mkRat 2197 10)),
      ("output_voltage", .vFloat (mkRat 2197 10)),
      ("load_percent", .vInt 0),
      ("input_frequency_hz", .vFloat 50),
      ("battery_voltage", .vFloat (mkRat 273 10)),
      ("temperature_c", .vFloat 30),
      ("utility_fail", .vBool (bitAt (q1Bits "(219.7 219.7 219.7 000 50.0 27.3 30.0 01010101") 0)),
      ("battery_low", .vBool (bitAt (q1Bits "(219.7 219.7 219.7 000 50.0 27.3 30.0 01010101") 1)),
      ("avr_active", .vBool (bitAt (q1Bits "(219.7 219.7 219.7 000 50.0 27.3 30.0 01010101") 2)),
      ("ups_failed", .vBool (bitAt (q1Bits "(219.7 219.7 219.7 000 50.0 27.3 30.0 01010101") 3)),
      ("standby_type", .vBool (bitAt (q1Bits "(219.7 219.7 219.7 000 50.0 27.3 30.0 01010101") 4)),
      ("test_in_progress",
        .vBool (bitAt (q1Bits "(219.7 219.7 219.7 000 50.0 27.3 30.0 01010101") 5)),
      ("shutdown_active",
        .vBool (bitAt (q1Bits "(219.7 219.7 219.7 000 50.0 27.3 30.0 01010101") 6)),
      ("beeper_on", .vBool (bitAt (q1Bits "(219.7 219.7 219.7 000 50.0 27.3 30.0 01010101") 7)),
      ("protocol_family", .vStr "megatec")] :=
  c1_q1_recovery.2 "(219.7 219.7 219.7 000 50.0 27.3 30.0 01010101"
    (mkRat 2197 10) (mkRat 2197 10) (mkRat 2197 10) 0 50 (mkRat 273 10) 30
    (by decide) (by decide) (by decide) (by decide) (by decide) (by decide) (by decide)
    (by decide) (by decide) (by decide)

/-! ## Claim C4 -/

/-- C4 counterexample: a frame with 9 whitespace-separated tokens (the
valid 8-token example plus a trailing token) still parses — `parse_q1`
does not require exactly 8 tokens. -/
theorem c4_nine_token_counterexample :
    (frameTokens "(219.7 219.7 219.7 000 50.0 27.3 30.0 01010101 9").length = 9 ∧
    (parse_q1 "(219.7 219.7 219.7 000 50.0 27.3 30.0 01010101 9").isSome = true := by decide

/-- C4 amended: `parse_q1` succeeds only on frames of at least 8
whitespace-separated tokens, and every frame whose token 7 is not exactly
8 characters drawn from '0'/'1' fails to parse. -/
theorem c4_token_count_and_bitfield :
    (∀ raw : String, (parse_q1 raw).isSome = true → 8 ≤ (frameTokens raw).length) ∧
    (∀ raw : String,
      ¬((q1Bits raw).length = 8 ∧ (q1Bits raw).data.all (fun b => b == '0' || b == '1') = true) →
      parse_q1 raw = none) := by
  constructor
  · intro raw h
    unfold parse_q1 at h
    by_cases h1 : (frameTokens raw).length < 8
    · rw [if_pos h1] at h
      simp at h
    · omega
  · intro raw hbad
    unfold parse_q1
    by_cases h1 : (frameTokens raw).length < 8
    · rw [if_pos h1]
    · rw [if_neg h1]
      by_cases h2 : ((q1Bits raw).length != 8
          || (q1Bits raw).data.any (fun b => b != '0' && b != '1')) = true
      · rw [if_pos h2]
      · exfalso
        apply hbad
        simp only [Bool.or_eq_true, bne_iff_ne, not_or, Bool.not_eq_true] at h2
        push_neg at h2
        obtain ⟨hlen, hany⟩ := h2
        refine ⟨hlen, ?_⟩
        rw [List.all_eq_true]
        intro b hb
        have hfb : (b != '0' && b != '1') = false := by
          by_contra hc
          rw [Bool.not_eq_false] at hc
          have hx : ((q1Bits raw).data.any fun b => b != '0' && b != '1') = true :=
            List.any_eq_true.mpr ⟨b, hb, hc⟩
          exact absurd hx (by simp [hany])
        simp only [Bool.and_eq_false_iff, bne_eq_false_iff_eq] at hfb
        rcases hfb with h0 | h1
        · simp [h0]
        · simp [h1]

/-- C4 witness: a malformed bitfield is rejected, and the successful
example frame indeed has at least 8 tokens. -/
theorem c4_token_count_and_bitfield_witness :
    parse_q1 "(1 2 3 4 5 6 7 0101010X" = none ∧
    8 ≤ (frameTokens "(219.7 219.7 219.7 000 50.0 27.3 30.0 01010101").length :=
  ⟨c4_token_count_and_bitfield.2 "(1 2 3 4 5 6 7 0101010X" (by decide),
   c4_token_count_and_bitfield.1 "(219.7 219.7 219.7 000 50.0 27.3 30.0 01010101" (by decide)⟩

/-! ## Claim C8 -/

/-- C8: `parse_i` maps the example identity payload to
company/model/firmware, and rejects every payload whose first whitespace
token (after stripping the `'#'` noise prefix) parses as a number. -/
theorem c8_parse_i_identity :
    parse_i "#LIVIGY PSH-1500 FW1.03" = some [("company", Value.vStr "LIVIGY"),
      ("model", Value.vStr "PSH-1500"), ("firmware", Value.vStr "FW1.03")] ∧
    ∀ raw : String, _is_number ((pySplit (_i_payload raw)).getD 0 "") = true →
      parse_i raw = none := by
  constructor
  · decide
  · intro raw h
    unfold parse_i
    by_cases h1 : (pyStrip raw).data.head? = some '('
    · rw [if_pos h1]
    · rw [if_neg h1]
      rcases hp : pySplit (_i_payload raw) with _ | ⟨p0, rest⟩
      · rfl
      · dsimp only
        rw [hp] at h
        simp only [List.getD_cons_zero] at h
        rw [if_pos h]

/-- C8 witness: a status frame misrouted to the identity parser (first
token numeric) is rejected. -/
theorem c8_parse_i_identity_witness : parse_i "220.0 5.0 24.0" = none :=
  c8_parse_i_identity.2 "220.0 5.0 24.0" (by decide)

/-! ## Claim C5 -/

/-- C5: merging a Megatec primary Q1 mapping with the optional I and F
enrich mappings never changes the value of any key already set by the
primary mapping — the key sets of `parse_i` and `parse_f` are disjoint
from the key set of `parse_q1`. -/
theorem c5_megatec_merge_disjoint (r1 r2 r3 : String) (m1 m2 m3 : FieldMap)
    (h1 : parse_q1 r1 = some m1) (h2 : parse_i r2 = some m2) (h3 : parse_f r3 = some m3) :
    ∀ k : String, (lookupKey m1 k).isSome = true →
      lookupKey (updateAll (updateAll m1 m2) m3) k = lookupKey m1 k ∧
      lookupKey m2 k = none ∧ lookupKey m3 k = none := by
  intro k hk
  have hk1 := parse_q1_keys h1
  have hk2 := parse_i_keys h2
  have hk3 := parse_f_keys h3
  have hmem : k ∈ m1.map Prod.fst := mem_keys_of_lookupKey_isSome _ _ hk
  rw [hk1] at hmem
  unfold q1Keys at hmem
  have hnot2 : k ∉ m2.map Prod.fst := by
    rw [hk2]
    fin_cases hmem <;> decide
  have hnot3 : k ∉ m3.map Prod.fst := by
    rw [hk3]
    fin_cases hmem <;> decide
  refine ⟨?_, lookupKey_eq_none_of_not_mem _ _ hnot2, lookupKey_eq_none_of_not_mem _ _ hnot3⟩
  rw [lookupKey_updateAll_of_not_mem _ _ _ hnot3, lookupKey_updateAll_of_not_mem _ _ _ hnot2]

/-- C5 witness: the example Q1/I/F frames and the primary key
`input_voltage`. -/
theorem c5_megatec_merge_disjoint_witness :
    lookupKey (updateAll (updateAll [
      ("input_voltage", Value.vFloat (mkRat 2197 10)),
      ("fault_voltage", Value.vFloat (mkRat 2197 10)),
      ("output_voltage", Value.vFloat (mkRat 2197 10)),
      ("load_percent", Value.vInt 0),
      ("input_frequency_hz", Value.vFloat 50),
      ("battery_voltage", Value.vFloat (mkRat 273 10)),
      ("temperature_c", Value.vFloat 30),
      ("utility_fail", Value.vBool false),
      ("battery_low", Value.vBool true),
      ("avr_active", Value.vBool false),
      ("ups_failed", Value.vBool true),
      ("standby_type", Value.vBool false),
      ("test_in_progress", Value.vBool true),
      ("shutdown_active", Value.vBool false),
      ("beeper_on", Value.vBool true),
      ("protocol_family", Value.vStr "megatec")]
      [("company", Value.vStr "LIVIGY"), ("model", Value.vStr "PSH-1500"),
        ("firmware", Value.vStr "FW1.03")])
      [("rated_voltage", Value.vFloat 220), ("rated_current", Value.vFloat 5),
        ("rated_battery_voltage", Value.vFloat 24), ("rated_frequency_hz", Value.vFloat 50)])
      "input_voltage"
      = lookupKey [
      ("input_voltage", Value.vFloat (mkRat 2197 10)),
      ("fault_voltage", Value.vFloat (mkRat 2197 10)),
      ("output_voltage", Value.vFloat (mkRat 2197 10)),
      ("load_percent", Value.vInt 0),
      ("input_frequency_hz", Value.vFloat 50),
      ("battery_voltage", Value.vFloat (mkRat 273 10)),
      ("temperature_c", Value.vFloat 30),
      ("utility_fail", Value.vBool false),
      ("battery_low", Value.vBool true),
      ("avr_active", Value.vBool false),
      ("ups_failed", Value.vBool true),
      ("standby_type", Value.vBool false),
      ("test_in_progress", Value.vBool true),
      ("shutdown_active", Value.vBool false),
      ("beeper_on", Value.vBool true),
      ("protocol_family", Value.vStr "megatec")] "input_voltage" ∧
    lookupKey [("company", Value.vStr "LIVIGY"), ("model", Value.vStr "PSH-1500"),
      ("firmware", Value.vStr "FW1.03")] "input_voltage" = none ∧
    lookupKey [("rated_voltage", Value.vFloat 220), ("rated_current", Value.vFloat 5),
      ("rated_battery_voltage", Value.vFloat 24), ("rated_frequency_hz", Value.vFloat 50)]
      "input_voltage" = none :=
  c5_megatec_merge_disjoint
    "(219.7 219.7 219.7 000 50.0 27.3 30.0 01010101" "#LIVIGY PSH-1500 FW1.03" "(220.0 5.0 24.0 50.0"
    _ _ _ (by decide) (by decide) (by decide) "input_voltage" (by decide)

/-! ## Claim C2 -/

/-- Positions 0 and 1 of a list seen through `take 2`. -/
theorem getD_of_take_two {l : List Char} {a b : Char} (h : l.take 2 = [a, b]) (d : Char) :
    l.getD 0 d = a ∧ l.getD 1 d = b := by
  cases l with
  | nil => simp at h
  | cons x t =>
    cases t with
    | nil => simp at h
    | cons y t2 =>
      simp [List.take] at h
      obtain ⟨rfl, rfl⟩ := h
      simp [List.getD]

/-- C2: for every frame `parse_qgs` accepts, the returned `beeper_on` is
the logical negation of the returned `battery_silence` flag (bit
position 9 of the bitfield), and the 2-bit topology code of token 11
maps through `{"00": standby, "01": line_interactive, "10": online}`. -/
theorem c2_qgs_topology_and_beeper (raw : String) (m : FieldMap) (h : parse_qgs raw = some m) :
    (∃ b : Bool, lookupKey m "beeper_on" = some (.vBool b) ∧
      lookupKey m "battery_silence" = some (.vBool (!b))) ∧
    ((qgsBits raw).data.take 2 = ['0', '0'] →
      lookupKey m "ups_topology" = some (.vStr "standby")) ∧
    ((qgsBits raw).data.take 2 = ['0', '1'] →
      lookupKey m "ups_topology" = some (.vStr "line_interactive")) ∧
    ((qgsBits raw).data.take 2 = ['1', '0'] →
      lookupKey m "ups_topology" = some (.vStr "online")) := by
  unfold parse_qgs at h
  by_cases h1 : (frameTokens raw).length < 12
  · rw [if_pos h1] at h
    exact Option.noConfusion h
  rw [if_neg h1] at h
  by_cases h2 : ((qgsBits raw).length != 12
      || (qgsBits raw).data.any (fun b => b != '0' && b != '1')) = true
  · rw [if_pos h2] at h
    exact Option.noConfusion h
  rw [if_neg h2] at h
  simp only [Bool.or_eq_true, bne_iff_ne, not_or, Bool.not_eq_true] at h2
  push_neg at h2
  obtain ⟨hlen, hany⟩ := h2
  have hbin : ∀ c ∈ (qgsBits raw).data, c = '0' ∨ c = '1' := by
    intro c hc
    have hfb : (c != '0' && c != '1') = false := by
      by_contra hcc
      rw [Bool.not_eq_false] at hcc
      have hx : ((qgsBits raw).data.any fun b => b != '0' && b != '1') = true :=
        List.any_eq_true.mpr ⟨c, hc, hcc⟩
      exact absurd hx (by simp [hany])
    simp only [Bool.and_eq_false_iff, bne_eq_false_iff_eq] at hfb
    rcases hfb with h0 | h1'
    · exact Or.inl h0
    · exact Or.inr h1'
  have hmem9 : (qgsBits raw).data.getD 9 '0' ∈ (qgsBits raw).data := by
    have hlt : 9 < (qgsBits raw).data.length := by
      have he : (qgsBits raw).data.length = (qgsBits raw).length := rfl
      omega
    rw [List.getD_eq_getElem _ _ hlt]
    exact List.getElem_mem hlt
  rcases hf0 : _parse_float ((frameTokens raw).getD 0 "") with _ | v0
  · rw [hf0] at h; dsimp only at h; exact Option.noConfusion h
  rw [hf0] at h
  rcases hf1 : _parse_float ((frameTokens raw).getD 1 "") with _ | v1
  · rw [hf1] at h; dsimp only at h; exact Option.noConfusion h
  rw [hf1] at h
  rcases hf2 : _parse_float ((frameTokens raw).getD 2 "") with _ | v2
  · rw [hf2] at h; dsimp only at h; exact Option.noConfusion h
  rw [hf2] at h
  rcases hf3 : _parse_float ((frameTokens raw).getD 3 "") with _ | v3
  · rw [hf3] at h; dsimp only at h; exact Option.noConfusion h
  rw [hf3] at h
  rcases hf4 : _parse_float ((frameTokens raw).getD 4 "") with _ | v4
  · rw [hf4] at h; dsimp only at h; exact Option.noConfusion h
  rw [hf4] at h
  rcases hf5 : _parse_int ((frameTokens raw).getD 5 "") with _ | n5
  · rw [hf5] at h; dsimp only at h; exact Option.noConfusion h
  rw [hf5] at h
  rcases hf6 : _parse_float ((frameTokens raw).getD 6 "") with _ | v6
  · rw [hf6] at h; dsimp only at h; exact Option.noConfusion h
  rw [hf6] at h
  rcases hf7 : _parse_float ((frameTokens raw).getD 7 "") with _ | v7
  · rw [hf7] at h; dsimp only at h; exact Option.noConfusion h
  rw [hf7] at h
  rcases hf8 : _parse_float ((frameTokens raw).getD 8 "") with _ | v8
  · rw [hf8] at h; dsimp only at h; exact Option.noConfusion h
  rw [hf8] at h
  rcases hf9 : _parse_float ((frameTokens raw).getD 9 "") with _ | v9
  · rw [hf9] at h; dsimp only at h; exact Option.noConfusion h
  rw [hf9] at h
  rcases hf10 : _parse_float ((frameTokens raw).getD 10 "") with _ | v10
  · rw [hf10] at h; dsimp only at h; exact Option.noConfusion h
  rw [hf10] at h
  dsimp only at h
  simp only [Option.some.injEq] at h
  subst h
  refine ⟨⟨(qgsBits raw).data.getD 9 '0' == '0', rfl, ?_⟩, ?_, ?_, ?_⟩
  · show some (Value.vBool (bitAt (qgsBits raw) 9))
      = some (Value.vBool (!((qgsBits raw).data.getD 9 '0' == '0')))
    unfold bitAt
    rcases hbin _ hmem9 with h9 | h9 <;> rw [h9] <;> rfl
  · intro ht
    obtain ⟨ha, hb⟩ := getD_of_take_two ht ' '
    show some (Value.vStr ((topologyMap.lookup
      (String.mk [(qgsBits raw).data.getD 0 ' ', (qgsBits raw).data.getD 1 ' '])).getD
        "unknown")) = some (Value.vStr "standby")
    rw [ha, hb]
    rfl
  · intro ht
    obtain ⟨ha, hb⟩ := getD_of_take_two ht ' '
    show some (Value.vStr ((topologyMap.lookup
      (String.mk [(qgsBits raw).data.getD 0 ' ', (qgsBits raw).data.getD 1 ' '])).getD
        "unknown")) = some (Value.vStr "line_interactive")
    rw [ha, hb]
    rfl
  · intro ht
    obtain ⟨ha, hb⟩ := getD_of_take_two ht ' '
    show some (Value.vStr ((topologyMap.lookup
      (String.mk [(qgsBits raw).data.getD 0 ' ', (qgsBits raw).data.getD 1 ' '])).getD
        "unknown")) = some (Value.vStr "online")
    rw [ha, hb]
    rfl

/-- C2 witness at a concrete Centurion frame with topology code "10". -/
theorem c2_qgs_topology_and_beeper_witness :
    (∃ b : Bool,
      lookupKey [("input_voltage", Value.vFloat 1), ("input_frequency_hz", Value.vFloat 1),
        ("output_voltage", Value.vFloat 1), ("output_frequency_hz", Value.vFloat 1),
        ("output_current_a", Value.vFloat 1), ("load_percent", Value.vInt 1),
        ("positive_bus_voltage", Value.vFloat 1), ("negative_bus_voltage", Value.vFloat 1),
        ("battery_voltage", Value.vFloat 1), ("negative_battery_voltage", Value.vFloat 1),
        ("temperature_c", Value.vFloat 1), ("utility_fail", Value.vBool false),
        ("battery_low", Value.vBool false), ("avr_active", Value.vBool false),
        ("ups_failed", Value.vBool false), ("epo_active", Value.vBool false),
        ("test_in_progress", Value.vBool false), ("shutdown_active", Value.vBool false),
        ("battery_silence", Value.vBool false), ("beeper_on", Value.vBool true),
        ("battery_test_fail", Value.vBool false), ("battery_test_ok", Value.vBool false),
        ("standby_type", Value.vBool false), ("ups_topology", Value.vStr "online"),
        ("protocol_family", Value.vStr "centurion")] "beeper_on" = some (.vBool b) ∧
      lookupKey [("input_voltage", Value.vFloat 1), ("input_frequency_hz", Value.vFloat 1),
        ("output_voltage", Value.vFloat 1), ("output_frequency_hz", Value.vFloat 1),
        ("output_current_a", Value.vFloat 1), ("load_percent", Value.vInt 1),
        ("positive_bus_voltage", Value.vFloat 1), ("negative_bus_voltage", Value.vFloat 1),
        ("battery_voltage", Value.vFloat 1), ("negative_battery_voltage", Value.vFloat 1),
        ("temperature_c", Value.vFloat 1), ("utility_fail", Value.vBool false),
        ("battery_low", Value.vBool false), ("avr_active", Value.vBool false),
        ("ups_failed", Value.vBool false), ("epo_active", Value.vBool false),
        ("test_in_progress", Value.vBool false), ("shutdown_active", Value.vBool false),
        ("battery_silence", Value.vBool false), ("beeper_on", Value.vBool true),
        ("battery_test_fail", Value.vBool false), ("battery_test_ok", Value.vBool false),
        ("standby_type", Value.vBool false), ("ups_topology", Value.vStr "online"),
        ("protocol_family", Value.vStr "centurion")] "battery_silence" = some (.vBool (!b))) ∧
    ((qgsBits "1 1 1 1 1 1 1 1 1 1 1 100000000000").data.take 2 = ['0', '0'] →
      lookupKey [("input_voltage", Value.vFloat 1), ("input_frequency_hz", Value.vFloat 1),
        ("output_voltage", Value.vFloat 1), ("output_frequency_hz", Value.vFloat 1),
        ("output_current_a", Value.vFloat 1), ("load_percent", Value.vInt 1),
        ("positive_bus_voltage", Value.vFloat 1), ("negative_bus_voltage", Value.vFloat 1),
        ("battery_voltage", Value.vFloat 1), ("negative_battery_voltage", Value.vFloat 1),
        ("temperature_c", Value.vFloat 1), ("utility_fail", Value.vBool false),
        ("battery_low", Value.vBool false), ("avr_active", Value.vBool false),
        ("ups_failed", Value.vBool false), ("epo_active", Value.vBool false),
        ("test_in_progress", Value.vBool false), ("shutdown_active", Value.vBool false),
        ("battery_silence", Value.vBool false), ("beeper_on", Value.vBool true),
        ("battery_test_fail", Value.vBool false), ("battery_test_ok", Value.vBool false),
        ("standby_type", Value.vBool false), ("ups_topology", Value.vStr "online"),
        ("protocol_family", Value.vStr "centurion")] "ups_topology" = some (.vStr "standby")) ∧
    ((qgsBits "1 1 1 1 1 1 1 1 1 1 1 100000000000").data.take 2 = ['0', '1'] →
      lookupKey [("input_voltage", Value.vFloat 1), ("input_frequency_hz", Value.vFloat 1),
        ("output_voltage", Value.vFloat 1), ("output_frequency_hz", Value.vFloat 1),
        ("output_current_a", Value.vFloat 1), ("load_percent", Value.vInt 1),
        ("positive_bus_voltage", Value.vFloat 1), ("negative_bus_voltage", Value.vFloat 1),
        ("battery_voltage", Value.vFloat 1), ("negative_battery_voltage", Value.vFloat 1),
        ("temperature_c", Value.vFloat 1), ("utility_fail", Value.vBool false),
        ("battery_low", Value.vBool false), ("avr_active", Value.vBool false),
        ("ups_failed", Value.vBool false), ("epo_active", Value.vBool false),
        ("test_in_progress", Value.vBool false), ("shutdown_active", Value.vBool false),
        ("battery_silence", Value.vBool false), ("beeper_on", Value.vBool true),
        ("battery_test_fail", Value.vBool false), ("battery_test_ok", Value.vBool false),
        ("standby_type", Value.vBool false), ("ups_topology", Value.vStr "online"),
        ("protocol_family", Value.vStr "centurion")] "ups_topology"
          = some (.vStr "line_interactive")) ∧
    ((qgsBits "1 1 1 1 1 1 1 1 1 1 1 100000000000").data.take 2 = ['1', '0'] →
      lookupKey [("input_voltage", Value.vFloat 1), ("input_frequency_hz", Value.vFloat 1),
        ("output_voltage", Value.vFloat 1), ("output_frequency_hz", Value.vFloat 1),
        ("output_current_a", Value.vFloat 1), ("load_percent", Value.vInt 1),
        ("positive_bus_voltage", Value.vFloat 1), ("negative_bus_voltage", Value.vFloat 1),
        ("battery_voltage", Value.vFloat 1), ("negative_battery_voltage", Value.vFloat 1),
        ("temperature_c", Value.vFloat 1), ("utility_fail", Value.vBool false),
        ("battery_low", Value.vBool false), ("avr_active", Value.vBool false),
        ("ups_failed", Value.vBool false), ("epo_active", Value.vBool false),
        ("test_in_progress", Value.vBool false), ("shutdown_active", Value.vBool false),
        ("battery_silence", Value.vBool false), ("beeper_on", Value.vBool true),
        ("battery_test_fail", Value.vBool false), ("battery_test_ok", Value.vBool false),
        ("standby_type", Value.vBool false), ("ups_topology", Value.vStr "online"),
        ("protocol_family", Value.vStr "centurion")] "ups_topology" = some (.vStr "online")) :=
  c2_qgs_topology_and_beeper "1 1 1 1 1 1 1 1 1 1 1 100000000000" _ (by decide)
